import Mathlib

/-!
# Mushroom colonization chamber controller (`src/main.c`)

A shallow embedding of the control loop of `main.c` and the properties of its
specification.

Modelling conventions.

* `uint64_t` microsecond timestamps are natural numbers; the one unsigned
  subtraction of the program is taken modulo `2 ^ 64`.
* `float` / `double` values are rational numbers. Every floating-point operation of the
  program yields the exact result rounded to the nearest number of its format (24 significant
  bits for `float`, 53 for `double`), ties to even, as IEEE 754 arithmetic does. The exponent
  range is not modelled: overflow, subnormal numbers and NaN are left out. The values the
  program computes stay in the normal range for timestamps below `2 ^ 64` and for sensor
  readings of magnitude at most `2 ^ 100`.
* The hardware is a record of the three output pins the program drives plus the
  list of externally visible effects performed so far, in program order.
* The environment of one pass of the `while (true)` loop is a `Tick`: what
  `dht_read` answers and what `time_us_64` would answer during that pass.
-/

namespace Chamber

/-! ## Pin mapping and controller parameters -/

/-- Macro `#define TEMP_HUMIDITY_SENSOR_PIN 0` -/
def TEMP_HUMIDITY_SENSOR_PIN : Nat := 0

/-- Macro `#define FANS_SWITCH_PIN 19` -/
def FANS_SWITCH_PIN : Nat := 19

/-- Macro `#define HEAT_PADS_SWITCH_PIN 18` -/
def HEAT_PADS_SWITCH_PIN : Nat := 18

/-- Modelled from the spec: the pin of the power/health indicator. `main.c` names it
`PICO_DEFAULT_LED_PIN`, a constant of the board header of the SDK, which is not part of the
sources; 25 is the on-board LED of the Pico. -/
def PICO_DEFAULT_LED_PIN : Nat := 25

/-- Macro `#define MS_BETWEEN_CONTROLLER_CYCLES 60000` -/
def MS_BETWEEN_CONTROLLER_CYCLES : Nat := 60000

/-- Macro `#define MINIMUM_TEMPERATURE 70.0` -/
def MINIMUM_TEMPERATURE : ℚ := 70

/-- Macro `#define MAXIMUM_TEMPERATURE 80.0` -/
def MAXIMUM_TEMPERATURE : ℚ := 80

/-- Macro `#define AIR_CYCLE_MINS_PER_HOUR 15.0` -/
def AIR_CYCLE_MINS_PER_HOUR : ℚ := 15

/-- Number of values of a `uint64_t`. -/
def UINT64_RANGE : Nat := 2 ^ 64

/-! ## Floating-point rounding -/

/-- Round a rational to the nearest integer, a tie going to the even neighbour. -/
def round_half_even (n : ℚ) : ℤ :=
  if n - ⌊n⌋ < 1 / 2 then ⌊n⌋
  else if 1 / 2 < n - ⌊n⌋ then ⌊n⌋ + 1
  else if ⌊n⌋ % 2 = 0 then ⌊n⌋
  else ⌊n⌋ + 1

/-- Spacing of the binary floating-point numbers with `p` significant bits around `x`:
`2 ^ (e - (p - 1))` where `2 ^ e ≤ |x| < 2 ^ (e + 1)`. -/
def ulp (p : Nat) (x : ℚ) : ℚ :=
  2 ^ (Int.log 2 |x| - ((p : ℤ) - 1))

/-- Round to the nearest binary floating-point number with `p` significant bits, ties to
even. -/
def round_nearest_even (p : Nat) (x : ℚ) : ℚ :=
  round_half_even (x / ulp p x) * ulp p x

/-- The value a `float` (IEEE 754 binary32) takes when the exact result is `x`. -/
def to_float (x : ℚ) : ℚ :=
  round_nearest_even 24 x

/-- The value a `double` (IEEE 754 binary64) takes when the exact result is `x`. -/
def to_double (x : ℚ) : ℚ :=
  round_nearest_even 53 x

/-! ## Effects and state -/

/-- The externally visible actions of the program. -/
inductive Effect where
  /-- Call `sleep_ms(ms)`. -/
  | sleep_ms (ms : Nat)
  /-- Call `dht_read(&temp_humidity_sensor)`. -/
  | dht_read
  /-- Call `gpio_put(pin, value)`. -/
  | gpio_put (pin : Nat) (value : Bool)
  /-- The status line `Current Temperature: ..F, Air Cycle Active: .., Heat Pads Active: ..`. -/
  | printf_status (temperature : ℚ) (air_cycle_active heat_pads_active : Bool)
  /-- The line `Temperature sensor reading failed.` -/
  | printf_failed
  deriving DecidableEq

/-- The global variables of `main.c` together with the output pins and the effects so far. -/
structure Controller where
  /-- Field `temp_celsius` of the global `temp_humidity_sensor`. -/
  temp_celsius : ℚ
  /-- The global `last_air_cycle_time`, in microseconds. -/
  last_air_cycle_time : Nat
  /-- Level of `PICO_DEFAULT_LED_PIN`. -/
  led : Bool
  /-- Level of `FANS_SWITCH_PIN`. -/
  fans : Bool
  /-- Level of `HEAT_PADS_SWITCH_PIN`. -/
  heat_pads : Bool
  /-- Effects performed so far, oldest first. -/
  trace : List Effect
  deriving DecidableEq

/-- What the environment answers during one pass of the main loop. -/
structure Tick where
  /-- Answer of `dht_read`: `some c` is `DHT_OK` with the `float` reading `temp_celsius = c`,
  `none` any other code. -/
  dht : Option ℚ
  /-- Answer of `time_us_64()` during this pass. -/
  time_us : Nat
  deriving DecidableEq

/-! ## The functions of `main.c` -/

/-- Pin write `gpio_put(pin, value)`: drive an output pin. -/
def gpio_put (pin : Nat) (value : Bool) (s : Controller) : Controller :=
  let s := { s with trace := s.trace ++ [Effect.gpio_put pin value] }
  if pin = PICO_DEFAULT_LED_PIN then { s with led := value }
  else if pin = FANS_SWITCH_PIN then { s with fans := value }
  else if pin = HEAT_PADS_SWITCH_PIN then { s with heat_pads := value }
  else s

/-- Function `read_temperature()`: `(float)((temp_celsius * 9.0 / 5.0) + 32.0)`, the sensor
reading in Fahrenheit. The `float` reading is promoted to `double`, the product, the quotient
and the sum are `double` operations, and the result is cast to `float`. -/
def read_temperature (temp_celsius : ℚ) : ℚ :=
  to_float (to_double (to_double (to_double (temp_celsius * 9) / 5) + 32))

/-- The expression `(float)(elapsed / 60000000.0f)` for a `uint64_t` value `elapsed`: the
integer is converted to `float` and the division is a `float` division. -/
def elapsed_minutes (elapsed : Nat) : ℚ :=
  to_float (to_float (elapsed : ℚ) / 60000000)

/-- The local `minutes_since_last_air_cycle` of `is_air_cycle_active`:
`(float)((current_time - last_air_cycle_time) / 60000000.0f)`, the subtraction being unsigned
64-bit. -/
def minutes_since_last_air_cycle (current_time last_air_cycle_time : Nat) : ℚ :=
  elapsed_minutes ((current_time + UINT64_RANGE - last_air_cycle_time) % UINT64_RANGE)

/-- Function `is_air_cycle_active()`, called when `time_us_64()` answers `current_time` and the
global `last_air_cycle_time` has the given value: the returned flag and the new value of the
global. -/
def is_air_cycle_active (current_time last_air_cycle_time : Nat) : Bool × Nat :=
  if minutes_since_last_air_cycle current_time last_air_cycle_time < AIR_CYCLE_MINS_PER_HOUR then
    (true, last_air_cycle_time)
  else if minutes_since_last_air_cycle current_time last_air_cycle_time ≥ 60 then
    (false, current_time)
  else
    (false, last_air_cycle_time)

/-- The first operand of `temperature > MAXIMUM_TEMPERATURE || is_air_cycle_active()` decides
whether the second one runs: the value of the disjunction and `last_air_cycle_time` after it. -/
def fans_decision (temperature : ℚ) (current_time last_air_cycle_time : Nat) : Bool × Nat :=
  if temperature > MAXIMUM_TEMPERATURE then (true, last_air_cycle_time)
  else is_air_cycle_active current_time last_air_cycle_time

/-- One pass of the body of `while (true)` in `main`. The flag is `true` when the loop goes on
(the pass ends in `sleep_ms`) and `false` when the pass ends in `break`. -/
def controller_cycle (s : Controller) (t : Tick) : Controller × Bool :=
  let s := { s with trace := s.trace ++ [Effect.dht_read] }
  match t.dht with
  | some c =>
    let s := { s with temp_celsius := c }
    let temperature := read_temperature s.temp_celsius
    let r := fans_decision temperature t.time_us s.last_air_cycle_time
    let air_cycle_active := r.1
    let s := { s with last_air_cycle_time := r.2 }
    let heat_pads_active := decide (temperature < MINIMUM_TEMPERATURE)
    let s := gpio_put FANS_SWITCH_PIN air_cycle_active s
    let s := gpio_put HEAT_PADS_SWITCH_PIN heat_pads_active s
    let s := { s with trace := s.trace ++
      [Effect.printf_status temperature air_cycle_active heat_pads_active] }
    let s := { s with trace := s.trace ++ [Effect.sleep_ms MS_BETWEEN_CONTROLLER_CYCLES] }
    (s, true)
  | none =>
    let s := { s with trace := s.trace ++ [Effect.printf_failed] }
    let s := gpio_put PICO_DEFAULT_LED_PIN false s
    (s, false)

/-- The `while (true)` loop of `main` against the answers of the environment, one `Tick` a
pass. The flag is `true` when the loop was left by `break` (so `main` returned) and `false`
when it is still running after the last listed pass. -/
def main_loop : Controller → List Tick → Controller × Bool
  | s, [] => (s, false)
  | s, t :: ts =>
    match controller_cycle s t with
    | (s', true) => main_loop s' ts
    | (s', false) => (s', true)

/-- Function `initialize()` of `main.c`, which sets up the hardware before the loop, when its
closing `time_us_64()` answers `start_time`. The globals start zeroed; of its effects only the
delay and the pin writes are recorded. -/
def initialize_hardware (start_time : Nat) : Controller :=
  let s : Controller :=
    { temp_celsius := 0, last_air_cycle_time := 0, led := false, fans := false,
      heat_pads := false, trace := [Effect.sleep_ms MS_BETWEEN_CONTROLLER_CYCLES] }
  let s := gpio_put PICO_DEFAULT_LED_PIN true s
  let s := gpio_put FANS_SWITCH_PIN false s
  let s := gpio_put HEAT_PADS_SWITCH_PIN false s
  { s with last_air_cycle_time := start_time }

/-- Function `main()`: set up, then loop. -/
def main (start_time : Nat) (ticks : List Tick) : Controller × Bool :=
  main_loop (initialize_hardware start_time) ticks

/-- The values of `last_air_cycle_time` after each of a series of calls of
`is_air_cycle_active`, made at the listed times. -/
def air_cycle_starts : Nat → List Nat → List Nat
  | _, [] => []
  | last, now :: rest =>
    (is_air_cycle_active now last).2 :: air_cycle_starts (is_air_cycle_active now last).2 rest

/-- A controller between two passes: the given window start and output levels, the indicator
on, the last reading 0 and an empty trace. Used to state concrete scenarios. -/
def controller_at (last_air_cycle_time : Nat) (fans heat_pads : Bool) : Controller :=
  { temp_celsius := 0, last_air_cycle_time := last_air_cycle_time, led := true, fans := fans,
    heat_pads := heat_pads, trace := [] }

/-- The elapsed time of the specification of the timer: `now - cycle_start`, expressed in
minutes (both are microsecond timestamps). -/
def spec_elapsed (now cycle_start : Nat) : ℚ :=
  ((now - cycle_start : Nat) : ℚ) / 60000000

/-! ## Properties of the rounding -/

theorem round_half_even_of_near (n : ℚ) (k : ℤ)
    (h : |n - k| < 1 / 2 ∨ (|n - k| = 1 / 2 ∧ k % 2 = 0)) : round_half_even n = k := by
  unfold round_half_even
  rcases h with h | ⟨h, hk⟩
  · rw [abs_lt] at h
    obtain ⟨h1, h2⟩ := h
    by_cases hnk : (k : ℚ) ≤ n
    · have hf : ⌊n⌋ = k := by
        rw [Int.floor_eq_iff]
        constructor <;> linarith
      rw [hf]
      have h3 : n - k < 1 / 2 := by linarith
      simp only [h3, if_true]
    · push_neg at hnk
      have hf : ⌊n⌋ = k - 1 := by
        rw [Int.floor_eq_iff]
        push_cast
        constructor <;> linarith
      rw [hf]
      push_cast
      have h3 : ¬ (n - (k - 1) < 1 / 2) := by linarith
      have h4 : 1 / 2 < n - ((k : ℚ) - 1) := by linarith
      simp only [h3, h4, if_true, if_false]
      ring
  · rcases abs_eq (by norm_num : (0 : ℚ) ≤ 1 / 2) |>.mp h with h | h
    · have hf : ⌊n⌋ = k := by
        rw [Int.floor_eq_iff]
        constructor <;> linarith
      rw [hf]
      have h3 : ¬ (n - k < 1 / 2) := by linarith
      have h4 : ¬ (1 / 2 < n - (k : ℚ)) := by linarith
      simp only [h3, h4, hk, if_true, if_false]
    · have hf : ⌊n⌋ = k - 1 := by
        rw [Int.floor_eq_iff]
        push_cast
        constructor <;> linarith
      rw [hf]
      push_cast
      have h3 : ¬ (n - ((k : ℚ) - 1) < 1 / 2) := by linarith
      have h4 : ¬ (1 / 2 < n - ((k : ℚ) - 1)) := by linarith
      have h5 : ¬ ((k - 1) % 2 = 0) := by omega
      simp only [h3, h4, h5, if_true, if_false]
      ring

theorem round_half_even_near (n : ℚ) :
    |n - round_half_even n| < 1 / 2 ∨
      (|n - round_half_even n| = 1 / 2 ∧ round_half_even n % 2 = 0) := by
  have h1 : (⌊n⌋ : ℚ) ≤ n := Int.floor_le n
  have h2 : n < ⌊n⌋ + 1 := Int.lt_floor_add_one n
  unfold round_half_even
  by_cases c1 : n - ⌊n⌋ < 1 / 2
  · simp only [c1, if_true]
    left
    rw [abs_lt]
    constructor <;> linarith
  · by_cases c2 : 1 / 2 < n - ⌊n⌋
    · simp only [c1, c2, if_true, if_false]
      left
      rw [abs_lt]
      push_cast
      constructor <;> linarith
    · have c3 : n - ⌊n⌋ = 1 / 2 := le_antisymm (not_lt.mp c2) (not_lt.mp c1)
      by_cases c4 : ⌊n⌋ % 2 = 0
      · simp only [c1, c2, c4, if_true, if_false]
        right
        refine ⟨?_, trivial⟩
        rw [c3]
        norm_num
      · simp only [c1, c2, c4, if_false]
        right
        constructor
        · push_cast
          have : n - (⌊n⌋ + 1) = -(1 / 2) := by linarith
          rw [this]
          norm_num
        · omega

theorem round_half_even_intCast (k : ℤ) : round_half_even (k : ℚ) = k :=
  round_half_even_of_near k k (Or.inl (by simp))

theorem round_half_even_neg (n : ℚ) : round_half_even (-n) = -round_half_even n := by
  apply round_half_even_of_near
  have e : -n - ((-round_half_even n : ℤ) : ℚ) = -(n - round_half_even n) := by
    push_cast
    ring
  rw [e, abs_neg]
  rcases round_half_even_near n with h | ⟨h, hk⟩
  · exact Or.inl h
  · exact Or.inr ⟨h, by omega⟩

theorem round_half_even_floor_le (n : ℚ) : ⌊n⌋ ≤ round_half_even n := by
  unfold round_half_even
  split_ifs <;> omega

theorem round_half_even_le_floor_succ (n : ℚ) : round_half_even n ≤ ⌊n⌋ + 1 := by
  unfold round_half_even
  split_ifs <;> omega

theorem round_half_even_mono {n m : ℚ} (h : n ≤ m) : round_half_even n ≤ round_half_even m := by
  have hf : ⌊n⌋ ≤ ⌊m⌋ := Int.floor_mono h
  rcases lt_or_eq_of_le hf with hlt | heq
  · have h1 := round_half_even_le_floor_succ n
    have h2 := round_half_even_floor_le m
    omega
  · unfold round_half_even
    rw [← heq]
    have hq : n - ⌊n⌋ ≤ m - ⌊n⌋ := by linarith
    split_ifs <;> first | omega | (exfalso; linarith)

theorem ulp_pos (p : Nat) (x : ℚ) : 0 < ulp p x := by
  unfold ulp
  positivity

theorem ulp_neg (p : Nat) (x : ℚ) : ulp p (-x) = ulp p x := by
  unfold ulp
  rw [abs_neg]

theorem round_nearest_even_zero (p : Nat) : round_nearest_even p 0 = 0 := by
  unfold round_nearest_even
  rw [zero_div]
  have : round_half_even 0 = 0 := round_half_even_intCast 0
  rw [this]
  simp

theorem round_nearest_even_neg (p : Nat) (x : ℚ) :
    round_nearest_even p (-x) = -round_nearest_even p x := by
  unfold round_nearest_even
  rw [ulp_neg, neg_div, round_half_even_neg]
  push_cast
  ring

theorem round_nearest_even_nonneg (p : Nat) {x : ℚ} (h : 0 ≤ x) :
    0 ≤ round_nearest_even p x := by
  unfold round_nearest_even
  have h1 : round_half_even 0 ≤ round_half_even (x / ulp p x) :=
    round_half_even_mono (div_nonneg h (le_of_lt (ulp_pos p x)))
  have h0 : round_half_even 0 = 0 := round_half_even_intCast 0
  rw [h0] at h1
  have h2 : (0 : ℚ) ≤ (round_half_even (x / ulp p x) : ℚ) := by exact_mod_cast h1
  exact mul_nonneg h2 (le_of_lt (ulp_pos p x))

/-- A positive number and its rounding lie in the same closed binade. -/
theorem round_nearest_even_binade (p : Nat) (hp : 1 ≤ p) {x : ℚ} (hx : 0 < x) :
    (2 : ℚ) ^ Int.log 2 x ≤ round_nearest_even p x ∧
      round_nearest_even p x ≤ (2 : ℚ) ^ (Int.log 2 x + 1) := by
  have hlo : (2 : ℚ) ^ Int.log 2 x ≤ x := by
    have := Int.zpow_log_le_self (b := 2) (r := x) (by norm_num) hx
    exact_mod_cast this
  have hhi : x < (2 : ℚ) ^ (Int.log 2 x + 1) := by
    have := Int.lt_zpow_succ_log_self (b := 2) (by norm_num) x
    exact_mod_cast this
  have hu : ulp p x = 2 ^ (Int.log 2 x - ((p : ℤ) - 1)) := by
    unfold ulp
    rw [abs_of_pos hx]
  have hupos : 0 < ulp p x := ulp_pos p x
  obtain ⟨q, hq⟩ : ∃ q : Nat, p = q + 1 := ⟨p - 1, by omega⟩
  have e1 : (2 : ℚ) ^ Int.log 2 x = ((2 ^ q : ℤ) : ℚ) * ulp p x := by
    rw [hu, hq]
    push_cast
    rw [← zpow_natCast, ← zpow_add₀ (by norm_num : (2 : ℚ) ≠ 0)]
    congr 1
    ring
  have e2 : (2 : ℚ) ^ (Int.log 2 x + 1) = ((2 ^ (q + 1) : ℤ) : ℚ) * ulp p x := by
    rw [hu, hq]
    push_cast
    rw [← zpow_natCast, ← zpow_add₀ (by norm_num : (2 : ℚ) ≠ 0)]
    congr 1
    push_cast
    ring
  have b1 : ((2 ^ q : ℤ) : ℚ) ≤ x / ulp p x := by
    rw [le_div_iff₀ hupos, ← e1]
    exact hlo
  have b2 : x / ulp p x ≤ ((2 ^ (q + 1) : ℤ) : ℚ) := by
    rw [div_le_iff₀ hupos, ← e2]
    exact le_of_lt hhi
  have r1 := round_half_even_mono b1
  have r2 := round_half_even_mono b2
  rw [round_half_even_intCast] at r1 r2
  unfold round_nearest_even
  rw [e1, e2]
  constructor
  · exact mul_le_mul_of_nonneg_right (by exact_mod_cast r1) (le_of_lt hupos)
  · exact mul_le_mul_of_nonneg_right (by exact_mod_cast r2) (le_of_lt hupos)

theorem round_nearest_even_mono_pos (p : Nat) (hp : 1 ≤ p) {x y : ℚ} (hx : 0 < x) (hxy : x ≤ y) :
    round_nearest_even p x ≤ round_nearest_even p y := by
  have hy : 0 < y := lt_of_lt_of_le hx hxy
  have hlog : Int.log 2 x ≤ Int.log 2 y := Int.log_mono_right hx hxy
  rcases lt_or_eq_of_le hlog with hlt | heq
  · have h1 := (round_nearest_even_binade p hp hx).2
    have h2 := (round_nearest_even_binade p hp hy).1
    have h3 : (2 : ℚ) ^ (Int.log 2 x + 1) ≤ 2 ^ Int.log 2 y :=
      zpow_le_zpow_right₀ (by norm_num) (by omega)
    linarith
  · have hu : ulp p x = ulp p y := by
      unfold ulp
      rw [abs_of_pos hx, abs_of_pos hy, heq]
    unfold round_nearest_even
    rw [hu]
    have hupos := ulp_pos p y
    have hdiv : x / ulp p y ≤ y / ulp p y := div_le_div_of_nonneg_right hxy (le_of_lt hupos)
    have := round_half_even_mono hdiv
    exact mul_le_mul_of_nonneg_right (by exact_mod_cast this) (le_of_lt hupos)

/-- Rounding to nearest is monotone. -/
theorem round_nearest_even_mono (p : Nat) (hp : 1 ≤ p) {x y : ℚ} (hxy : x ≤ y) :
    round_nearest_even p x ≤ round_nearest_even p y := by
  rcases lt_trichotomy 0 x with hx | hx | hx
  · exact round_nearest_even_mono_pos p hp hx hxy
  · rw [← hx, round_nearest_even_zero]
    exact round_nearest_even_nonneg p (by linarith)
  · rcases le_or_lt 0 y with hy | hy
    · have h1 : 0 ≤ round_nearest_even p (-x) := round_nearest_even_nonneg p (by linarith)
      rw [round_nearest_even_neg] at h1
      have h2 := round_nearest_even_nonneg p hy
      linarith
    · have h := round_nearest_even_mono_pos p hp (x := -y) (y := -x) (by linarith) (by linarith)
      rw [round_nearest_even_neg, round_nearest_even_neg] at h
      linarith

theorem log_two_abs_eq {x : ℚ} {e : ℤ} (h1 : (2 : ℚ) ^ e ≤ |x|) (h2 : |x| < (2 : ℚ) ^ (e + 1)) :
    Int.log 2 |x| = e := by
  have hpos : 0 < |x| := lt_of_lt_of_le (by positivity) h1
  have a : e ≤ Int.log 2 |x| :=
    (Int.zpow_le_iff_le_log (b := 2) (by norm_num) hpos).mp (by exact_mod_cast h1)
  have b : Int.log 2 |x| < e + 1 :=
    (Int.lt_zpow_iff_log_lt (b := 2) (by norm_num) hpos).mp (by exact_mod_cast h2)
  omega

/-- Evaluation of the rounding of a positive number from its binade `e` and its integer
significand `k`. -/
theorem round_nearest_even_eq (p : Nat) (x y : ℚ) (e k : ℤ)
    (h1 : (2 : ℚ) ^ e ≤ x) (h2 : x < (2 : ℚ) ^ (e + 1))
    (hk : (-(1 / 2) < x / 2 ^ (e - ((p : ℤ) - 1)) - k ∧
        x / 2 ^ (e - ((p : ℤ) - 1)) - k < 1 / 2) ∨
      ((x / 2 ^ (e - ((p : ℤ) - 1)) - k = 1 / 2 ∨
        x / 2 ^ (e - ((p : ℤ) - 1)) - k = -(1 / 2)) ∧ k % 2 = 0))
    (hy : (k : ℚ) * 2 ^ (e - ((p : ℤ) - 1)) = y) :
    round_nearest_even p x = y := by
  have hx : 0 < x := lt_of_lt_of_le (by positivity) h1
  have hk' : |x / 2 ^ (e - ((p : ℤ) - 1)) - k| < 1 / 2 ∨
      (|x / 2 ^ (e - ((p : ℤ) - 1)) - k| = 1 / 2 ∧ k % 2 = 0) := by
    rcases hk with ⟨ha, hb⟩ | ⟨hc, hd⟩
    · exact Or.inl (abs_lt.mpr ⟨ha, hb⟩)
    · refine Or.inr ⟨?_, hd⟩
      rcases hc with hc | hc
      · rw [hc]
        norm_num
      · rw [hc]
        norm_num
  have hlog : Int.log 2 |x| = e := by
    apply log_two_abs_eq
    · rwa [abs_of_pos hx]
    · rwa [abs_of_pos hx]
  unfold round_nearest_even ulp
  rw [hlog, round_half_even_of_near _ k hk', hy]

/-- Rounding moves a number by at most `2 ^ (-p)` of its magnitude. -/
theorem round_nearest_even_error (p : Nat) (x : ℚ) :
    |round_nearest_even p x - x| ≤ |x| / 2 ^ p := by
  rcases eq_or_ne x 0 with hx | hx
  · rw [hx, round_nearest_even_zero]
    simp
  · have hpos : 0 < |x| := abs_pos.mpr hx
    have hu := ulp_pos p x
    have hlo : (2 : ℚ) ^ Int.log 2 |x| ≤ |x| := by
      have := Int.zpow_log_le_self (b := 2) (r := |x|) (by norm_num) hpos
      exact_mod_cast this
    have hnear : |x / ulp p x - round_half_even (x / ulp p x)| ≤ 1 / 2 := by
      rcases round_half_even_near (x / ulp p x) with h | ⟨h, _⟩
      · exact le_of_lt h
      · exact le_of_eq h
    have e1 : round_nearest_even p x - x =
        -((x / ulp p x - round_half_even (x / ulp p x)) * ulp p x) := by
      unfold round_nearest_even
      field_simp
      ring
    rw [e1, abs_neg, abs_mul, abs_of_pos hu]
    have e2 : ulp p x = (2 : ℚ) ^ Int.log 2 |x| * 2 / 2 ^ p := by
      unfold ulp
      rw [zpow_sub₀ (by norm_num : (2 : ℚ) ≠ 0), zpow_sub₀ (by norm_num : (2 : ℚ) ≠ 0)]
      rw [zpow_natCast, zpow_one]
      field_simp
    have hp2 : (0 : ℚ) < 2 ^ p := by positivity
    calc |x / ulp p x - round_half_even (x / ulp p x)| * ulp p x
        ≤ 1 / 2 * ulp p x := mul_le_mul_of_nonneg_right hnear (le_of_lt hu)
      _ = (2 : ℚ) ^ Int.log 2 |x| / 2 ^ p := by rw [e2]; field_simp
      _ ≤ |x| / 2 ^ p := div_le_div_of_nonneg_right hlo (le_of_lt hp2)

/-! ## Evaluation at concrete inputs -/

theorem read_temperature_eval (c a b s f : ℚ) (h1 : to_double (c * 9) = a)
    (h2 : to_double (a / 5) = b) (h3 : to_double (b + 32) = s) (h4 : to_float s = f) :
    read_temperature c = f := by
  unfold read_temperature
  rw [h1, h2, h3, h4]

theorem elapsed_minutes_eval (elapsed : Nat) (x m : ℚ) (h1 : to_float (elapsed : ℚ) = x)
    (h2 : to_float (x / 60000000) = m) : elapsed_minutes elapsed = m := by
  unfold elapsed_minutes
  rw [h1, h2]

/-- The minutes the program computes for 899999967 elapsed microseconds. -/
theorem elapsed_minutes_899999967 : elapsed_minutes 899999967 = (15728639 / 1048576) :=
  elapsed_minutes_eval _ 899999936 _
    (round_nearest_even_eq 24 _ _ 29 14062499
      (by norm_num) (by norm_num) (by norm_num) (by norm_num))
    (round_nearest_even_eq 24 _ _ 3 15728639
      (by norm_num) (by norm_num) (by norm_num) (by norm_num))

/-- The minutes the program computes for 899999968 elapsed microseconds. -/
theorem elapsed_minutes_899999968 : elapsed_minutes 899999968 = 15 :=
  elapsed_minutes_eval _ 900000000 _
    (round_nearest_even_eq 24 _ _ 29 14062500
      (by norm_num) (by norm_num) (by norm_num) (by norm_num))
    (round_nearest_even_eq 24 _ _ 3 15728640
      (by norm_num) (by norm_num) (by norm_num) (by norm_num))

/-- The minutes the program computes for 3599999871 elapsed microseconds. -/
theorem elapsed_minutes_3599999871 : elapsed_minutes 3599999871 = (15728639 / 262144) :=
  elapsed_minutes_eval _ 3599999744 _
    (round_nearest_even_eq 24 _ _ 31 14062499
      (by norm_num) (by norm_num) (by norm_num) (by norm_num))
    (round_nearest_even_eq 24 _ _ 5 15728639
      (by norm_num) (by norm_num) (by norm_num) (by norm_num))

/-- The minutes the program computes for 3599999872 elapsed microseconds. -/
theorem elapsed_minutes_3599999872 : elapsed_minutes 3599999872 = 60 :=
  elapsed_minutes_eval _ 3600000000 _
    (round_nearest_even_eq 24 _ _ 31 14062500
      (by norm_num) (by norm_num) (by norm_num) (by norm_num))
    (round_nearest_even_eq 24 _ _ 5 15728640
      (by norm_num) (by norm_num) (by norm_num) (by norm_num))

/-- The conversion of 24 degrees Celsius: 75.19999694824219, not 75.2. -/
theorem read_temperature_24 : read_temperature 24 = (4928307 / 65536) :=
  read_temperature_eval _ 216
    (3039929748475085 / 70368744177664)
    (5291729562160333 / 70368744177664) _
    (round_nearest_even_eq 53 _ _ 7 7599824371187712
      (by norm_num) (by norm_num) (by norm_num) (by norm_num))
    (round_nearest_even_eq 53 _ _ 5 6079859496950170
      (by norm_num) (by norm_num) (by norm_num) (by norm_num))
    (round_nearest_even_eq 53 _ _ 6 5291729562160333
      (by norm_num) (by norm_num) (by norm_num) (by norm_num))
    (round_nearest_even_eq 24 _ _ 6 9856614
      (by norm_num) (by norm_num) (by norm_num) (by norm_num))

/-- The conversion of the `float` next below 24 is that of 24. -/
theorem read_temperature_below_24 : read_temperature (12582911 / 524288) = (4928307 / 65536) :=
  read_temperature_eval _ (113246199 / 524288)
    (6079859013766349 / 140737488355328)
    (2645864660284211 / 35184372088832) _
    (round_nearest_even_eq 53 _ _ 7 7599823767207936
      (by norm_num) (by norm_num) (by norm_num) (by norm_num))
    (round_nearest_even_eq 53 _ _ 5 6079859013766349
      (by norm_num) (by norm_num) (by norm_num) (by norm_num))
    (round_nearest_even_eq 53 _ _ 6 5291729320568422
      (by norm_num) (by norm_num) (by norm_num) (by norm_num))
    (round_nearest_even_eq 24 _ _ 6 9856614
      (by norm_num) (by norm_num) (by norm_num) (by norm_num))

/-- The conversion of 30 degrees Celsius is 86. -/
theorem read_temperature_30 : read_temperature 30 = 86 :=
  read_temperature_eval _ 270
    54
    86 _
    (round_nearest_even_eq 53 _ _ 8 4749890231992320
      (by norm_num) (by norm_num) (by norm_num) (by norm_num))
    (round_nearest_even_eq 53 _ _ 5 7599824371187712
      (by norm_num) (by norm_num) (by norm_num) (by norm_num))
    (round_nearest_even_eq 53 _ _ 6 6051711999279104
      (by norm_num) (by norm_num) (by norm_num) (by norm_num))
    (round_nearest_even_eq 24 _ _ 6 11272192
      (by norm_num) (by norm_num) (by norm_num) (by norm_num))

/-- The `float` nearest to 55/3 converts to 65. -/
theorem read_temperature_65 : read_temperature (9611947 / 524288) = 65 :=
  read_temperature_eval _ (86507523 / 524288)
    (2322168638393549 / 70368744177664)
    (4573968452078797 / 70368744177664) _
    (round_nearest_even_eq 53 _ _ 7 5805421595983872
      (by norm_num) (by norm_num) (by norm_num) (by norm_num))
    (round_nearest_even_eq 53 _ _ 5 4644337276787098
      (by norm_num) (by norm_num) (by norm_num) (by norm_num))
    (round_nearest_even_eq 53 _ _ 6 4573968452078797
      (by norm_num) (by norm_num) (by norm_num) (by norm_num))
    (round_nearest_even_eq 24 _ _ 6 8519680
      (by norm_num) (by norm_num) (by norm_num) (by norm_num))

/-- The `float` nearest to 265/9 converts to 85. -/
theorem read_temperature_85 : read_temperature (15437369 / 524288) = 85 :=
  read_temperature_eval _ (138936321 / 524288)
    (7459086936519475 / 140737488355328)
    (2990671640972493 / 35184372088832) _
    (round_nearest_even_eq 53 _ _ 8 4661929335324672
      (by norm_num) (by norm_num) (by norm_num) (by norm_num))
    (round_nearest_even_eq 53 _ _ 5 7459086936519475
      (by norm_num) (by norm_num) (by norm_num) (by norm_num))
    (round_nearest_even_eq 53 _ _ 6 5981343281944986
      (by norm_num) (by norm_num) (by norm_num) (by norm_num))
    (round_nearest_even_eq 24 _ _ 6 11141120
      (by norm_num) (by norm_num) (by norm_num) (by norm_num))

/-- The `float` nearest to 215/9 converts to 75. -/
theorem read_temperature_75 : read_temperature (6262329 / 262144) = 75 :=
  read_temperature_eval _ (56360961 / 262144)
    (3025856053326643 / 70368744177664)
    (5277655867011891 / 70368744177664) _
    (round_nearest_even_eq 53 _ _ 7 7564640133316608
      (by norm_num) (by norm_num) (by norm_num) (by norm_num))
    (round_nearest_even_eq 53 _ _ 5 6051712106653286
      (by norm_num) (by norm_num) (by norm_num) (by norm_num))
    (round_nearest_even_eq 53 _ _ 6 5277655867011891
      (by norm_num) (by norm_num) (by norm_num) (by norm_num))
    (round_nearest_even_eq 24 _ _ 6 9830400
      (by norm_num) (by norm_num) (by norm_num) (by norm_num))

/-- The `float` nearest to 190/9 converts to 70. -/
theorem read_temperature_70 : read_temperature (5534151 / 262144) = 70 :=
  read_temperature_eval _ (49807359 / 262144)
    (2674012225064141 / 70368744177664)
    (4925812038749389 / 70368744177664) _
    (round_nearest_even_eq 53 _ _ 7 6685030562660352
      (by norm_num) (by norm_num) (by norm_num) (by norm_num))
    (round_nearest_even_eq 53 _ _ 5 5348024450128282
      (by norm_num) (by norm_num) (by norm_num) (by norm_num))
    (round_nearest_even_eq 53 _ _ 6 4925812038749389
      (by norm_num) (by norm_num) (by norm_num) (by norm_num))
    (round_nearest_even_eq 24 _ _ 6 9175040
      (by norm_num) (by norm_num) (by norm_num) (by norm_num))

/-- The `float` nearest to 21.11 converts to 69.99800109863281. -/
theorem read_temperature_21_11 : read_temperature (1383465 / 65536) = (4587389 / 65536) :=
  read_temperature_eval _ (12451185 / 65536)
    (2490237 / 65536)
    (4587389 / 65536) _
    (round_nearest_even_eq 53 _ _ 7 6684679046430720
      (by norm_num) (by norm_num) (by norm_num) (by norm_num))
    (round_nearest_even_eq 53 _ _ 5 5347743237144576
      (by norm_num) (by norm_num) (by norm_num) (by norm_num))
    (round_nearest_even_eq 53 _ _ 6 4925671432257536
      (by norm_num) (by norm_num) (by norm_num) (by norm_num))
    (round_nearest_even_eq 24 _ _ 6 9174778
      (by norm_num) (by norm_num) (by norm_num) (by norm_num))

/-- The conversion of 0 degrees Celsius is 32. -/
theorem read_temperature_0 : read_temperature 0 = 32 :=
  read_temperature_eval _ 0
    0
    32 _
    (by simp [to_double, round_nearest_even_zero])
    (by simp [to_double, round_nearest_even_zero])
    (round_nearest_even_eq 53 _ _ 5 4503599627370496
      (by norm_num) (by norm_num) (by norm_num) (by norm_num))
    (round_nearest_even_eq 24 _ _ 5 8388608
      (by norm_num) (by norm_num) (by norm_num) (by norm_num))

/-- The conversion of 100 degrees Celsius is 212. -/
theorem read_temperature_100 : read_temperature 100 = 212 :=
  read_temperature_eval _ 900
    180
    212 _
    (round_nearest_even_eq 53 _ _ 9 7916483719987200
      (by norm_num) (by norm_num) (by norm_num) (by norm_num))
    (round_nearest_even_eq 53 _ _ 7 6333186975989760
      (by norm_num) (by norm_num) (by norm_num) (by norm_num))
    (round_nearest_even_eq 53 _ _ 7 7459086882832384
      (by norm_num) (by norm_num) (by norm_num) (by norm_num))
    (round_nearest_even_eq 24 _ _ 7 13893632
      (by norm_num) (by norm_num) (by norm_num) (by norm_num))

/-! ## The timer in whole microseconds -/

theorem elapsed_minutes_mono {d d' : Nat} (h : d ≤ d') :
    elapsed_minutes d ≤ elapsed_minutes d' := by
  unfold elapsed_minutes to_float
  apply round_nearest_even_mono 24 (by norm_num)
  apply div_le_div_of_nonneg_right _ (by norm_num)
  apply round_nearest_even_mono 24 (by norm_num)
  exact_mod_cast h

/-- The program sees less than 15 minutes exactly when less than 899999968 microseconds have
elapsed, 32 microseconds short of 15 minutes. -/
theorem elapsed_minutes_lt_15 (d : Nat) : elapsed_minutes d < 15 ↔ d < 899999968 := by
  constructor
  · intro h
    by_contra hd
    have h1 := elapsed_minutes_mono (not_lt.mp hd)
    rw [elapsed_minutes_899999968] at h1
    linarith
  · intro h
    have h1 := elapsed_minutes_mono (Nat.le_of_lt_succ h : d ≤ 899999967)
    rw [elapsed_minutes_899999967] at h1
    have h2 : (15728639 / 1048576 : ℚ) < 15 := by norm_num
    linarith

/-- The program sees 60 minutes or more exactly when at least 3599999872 microseconds have
elapsed, 128 microseconds short of 60 minutes. -/
theorem elapsed_minutes_ge_60 (d : Nat) : 60 ≤ elapsed_minutes d ↔ 3599999872 ≤ d := by
  constructor
  · intro h
    by_contra hd
    have hd' : d ≤ 3599999871 := by omega
    have h1 := elapsed_minutes_mono hd'
    rw [elapsed_minutes_3599999871] at h1
    have h2 : (15728639 / 262144 : ℚ) < 60 := by norm_num
    linarith
  · intro h
    have h1 := elapsed_minutes_mono h
    rw [elapsed_minutes_3599999872] at h1
    exact h1

/-- Within the range of the clock the unsigned subtraction is the exact difference. -/
theorem minutes_since_last_air_cycle_eq {now last : Nat} (h : last ≤ now)
    (hn : now < UINT64_RANGE) :
    minutes_since_last_air_cycle now last = elapsed_minutes (now - last) := by
  unfold minutes_since_last_air_cycle
  have e : (now + UINT64_RANGE - last) % UINT64_RANGE = now - last := by
    have h1 : now + UINT64_RANGE - last = (now - last) + UINT64_RANGE := by omega
    rw [h1, Nat.add_mod_right]
    exact Nat.mod_eq_of_lt (by omega)
  rw [e]

/-- Within the range of the clock, `is_air_cycle_active` in whole microseconds. -/
theorem is_air_cycle_active_us {now last : Nat} (h : last ≤ now) (hn : now < UINT64_RANGE) :
    is_air_cycle_active now last =
      if now - last < 899999968 then (true, last)
      else if 3599999872 ≤ now - last then (false, now)
      else (false, last) := by
  unfold is_air_cycle_active
  rw [minutes_since_last_air_cycle_eq h hn]
  simp only [AIR_CYCLE_MINS_PER_HOUR, ge_iff_le, elapsed_minutes_lt_15, elapsed_minutes_ge_60]


/-! ## The conversion up to rounding -/

theorem read_temperature_mono {c c' : ℚ} (h : c ≤ c') :
    read_temperature c ≤ read_temperature c' := by
  unfold read_temperature to_float to_double
  apply round_nearest_even_mono 24 (by norm_num)
  apply round_nearest_even_mono 53 (by norm_num)
  apply add_le_add_right
  apply round_nearest_even_mono 53 (by norm_num)
  apply div_le_div_of_nonneg_right _ (by norm_num)
  apply round_nearest_even_mono 53 (by norm_num)
  linarith

/-- The four roundings of `read_temperature` together move the result by at most
`2 ^ (-23)` of the exact conversion plus `2 ^ (-50)` of the reading. -/
theorem read_temperature_error (c : ℚ) :
    |read_temperature c - (c * 9 / 5 + 32)| ≤ |c * 9 / 5 + 32| / 2 ^ 23 + |c| / 2 ^ 50 := by
  have h1 := round_nearest_even_error 53 (c * 9)
  have h2 := round_nearest_even_error 53 (to_double (c * 9) / 5)
  have h3 := round_nearest_even_error 53 (to_double (to_double (c * 9) / 5) + 32)
  have h4 := round_nearest_even_error 24
    (to_double (to_double (to_double (c * 9) / 5) + 32))
  unfold read_temperature
  unfold to_float
  generalize ha : to_double (c * 9) = a at *
  unfold to_double at ha
  rw [ha] at h1
  generalize hb : to_double (a / 5) = b at *
  unfold to_double at hb
  rw [hb] at h2
  generalize hs : to_double (b + 32) = s at *
  unfold to_double at hs
  rw [hs] at h3
  generalize round_nearest_even 24 s = f at *
  have e9 : |c * 9| = 9 * |c| := by
    rw [abs_mul]
    norm_num
    ring
  have e5 : |a / 5| = |a| / 5 := by
    rw [abs_div]
    norm_num
  rw [e9] at h1
  rw [e5] at h2
  have t1 : |a| ≤ |a - c * 9| + 9 * |c| := by
    have := abs_add (a - c * 9) (c * 9)
    rw [e9] at this
    simpa using this
  have t3 : |b + 32| ≤ |b - a / 5| + |a - c * 9| / 5 + |c * 9 / 5 + 32| := by
    have e : b + 32 = (b - a / 5) + ((a - c * 9) / 5 + (c * 9 / 5 + 32)) := by ring
    have k1 := abs_add (b - a / 5) ((a - c * 9) / 5 + (c * 9 / 5 + 32))
    have k2 := abs_add ((a - c * 9) / 5) (c * 9 / 5 + 32)
    have k3 : |(a - c * 9) / 5| = |a - c * 9| / 5 := by
      rw [abs_div]
      norm_num
    rw [← e] at k1
    rw [k3] at k2
    linarith
  have t2 : |s| ≤ |s - (b + 32)| + |b + 32| := by
    have := abs_add (s - (b + 32)) (b + 32)
    simpa using this
  have t4 : |f - (c * 9 / 5 + 32)| ≤
      |f - s| + |s - (b + 32)| + |b - a / 5| + |a - c * 9| / 5 := by
    have e : f - (c * 9 / 5 + 32) = (f - s) + ((s - (b + 32)) + ((b - a / 5) + (a - c * 9) / 5)) := by
      ring
    have k1 := abs_add (f - s) ((s - (b + 32)) + ((b - a / 5) + (a - c * 9) / 5))
    have k2 := abs_add (s - (b + 32)) ((b - a / 5) + (a - c * 9) / 5)
    have k3 := abs_add (b - a / 5) ((a - c * 9) / 5)
    have k4 : |(a - c * 9) / 5| = |a - c * 9| / 5 := by
      rw [abs_div]
      norm_num
    rw [← e] at k1
    rw [k4] at k3
    linarith
  have n0 := abs_nonneg c
  have n1 := abs_nonneg (c * 9 / 5 + 32)
  have n2 := abs_nonneg (a - c * 9)
  have n3 := abs_nonneg (b - a / 5)
  have n4 := abs_nonneg (s - (b + 32))
  norm_num at h1 h2 h3 h4 ⊢
  linarith


/-- Readings of magnitude at most `2 ^ 100` convert to values within the range of `float`. -/
theorem read_temperature_finite (c : ℚ) (hc : |c| ≤ 2 ^ 100) :
    |read_temperature c| < 2 ^ 128 := by
  have h := read_temperature_error c
  have t : |read_temperature c| ≤
      |read_temperature c - (c * 9 / 5 + 32)| + |c * 9 / 5 + 32| := by
    have := abs_add (read_temperature c - (c * 9 / 5 + 32)) (c * 9 / 5 + 32)
    simpa using this
  have u : |c * 9 / 5 + 32| ≤ |c| * 9 / 5 + 32 := by
    have k := abs_add (c * 9 / 5) 32
    have e : |c * 9 / 5| = |c| * 9 / 5 := by
      rw [abs_div, abs_mul]
      norm_num
    rw [e] at k
    norm_num at k
    linarith
  have n0 := abs_nonneg c
  norm_num at h hc ⊢
  linarith

/-! ## The exact elapsed time -/

theorem spec_elapsed_ge_60 (now last : Nat) :
    60 ≤ spec_elapsed now last ↔ 3600000000 ≤ now - last := by
  unfold spec_elapsed
  rw [le_div_iff₀ (by norm_num : (0 : ℚ) < 60000000)]
  constructor
  · intro h
    have h' : ((3600000000 : Nat) : ℚ) ≤ ((now - last : Nat) : ℚ) := by push_cast; linarith
    exact_mod_cast h'
  · intro h
    have h' : ((3600000000 : Nat) : ℚ) ≤ ((now - last : Nat) : ℚ) := by exact_mod_cast h
    push_cast at h'; linarith

/-! ## One pass of the loop -/

/-- The whole effect of a pass of the loop in which the sensor answers `DHT_OK`. -/
theorem controller_cycle_ok (s : Controller) (c : ℚ) (now : Nat) :
    controller_cycle s ⟨some c, now⟩ =
      ({ temp_celsius := c
         last_air_cycle_time := (fans_decision (read_temperature c) now s.last_air_cycle_time).2
         led := s.led
         fans := (fans_decision (read_temperature c) now s.last_air_cycle_time).1
         heat_pads := decide (read_temperature c < MINIMUM_TEMPERATURE)
         trace := s.trace ++
           [Effect.dht_read,
            Effect.gpio_put FANS_SWITCH_PIN
              (fans_decision (read_temperature c) now s.last_air_cycle_time).1,
            Effect.gpio_put HEAT_PADS_SWITCH_PIN
              (decide (read_temperature c < MINIMUM_TEMPERATURE)),
            Effect.printf_status (read_temperature c)
              (fans_decision (read_temperature c) now s.last_air_cycle_time).1
              (decide (read_temperature c < MINIMUM_TEMPERATURE)),
            Effect.sleep_ms MS_BETWEEN_CONTROLLER_CYCLES] }, true) := by
  simp [controller_cycle, gpio_put, FANS_SWITCH_PIN, HEAT_PADS_SWITCH_PIN, PICO_DEFAULT_LED_PIN]

/-- The whole effect of a pass of the loop in which the sensor read fails. -/
theorem controller_cycle_fault (s : Controller) (now : Nat) :
    controller_cycle s ⟨none, now⟩ =
      ({ s with
         led := false
         trace := s.trace ++
           [Effect.dht_read, Effect.printf_failed,
            Effect.gpio_put PICO_DEFAULT_LED_PIN false] }, false) := by
  simp [controller_cycle, gpio_put]

/-- The value of the disjunction that drives the fans. -/
theorem fans_decision_fst (temperature : ℚ) (now last : Nat) :
    (fans_decision temperature now last).1 =
      (decide (temperature > MAXIMUM_TEMPERATURE) || (is_air_cycle_active now last).1) := by
  unfold fans_decision
  split <;> simp [*]

/-- Drift invariant of the timer: if the previous call was made less than a full period after
the program sees it after the window start and the calls are at most `d` apart, every later
window start is either kept or moved by at least 3599999872 microseconds (a full period less
128 microseconds) and by less than that plus `d`. -/
theorem air_cycle_starts_chain (d : Nat) :
    ∀ (times : List Nat) (cycle_start previous : Nat),
      cycle_start ≤ previous → previous < cycle_start + 3599999872 →
      List.Chain (fun a b => a ≤ b ∧ b ≤ a + d) previous times →
      (∀ t ∈ times, t < UINT64_RANGE) →
      List.Chain (fun a b => b = a ∨ (a + 3599999872 ≤ b ∧ b < a + 3599999872 + d))
        cycle_start (air_cycle_starts cycle_start times) := by
  intro times
  induction times with
  | nil =>
    intro cycle_start previous _ _ _ _
    exact List.Chain.nil
  | cons t ts ih =>
    intro cycle_start previous h1 h2 hchain hrange
    rw [List.chain_cons] at hchain
    obtain ⟨⟨hpt, htd⟩, hrest⟩ := hchain
    have ht : t < UINT64_RANGE := hrange t (List.mem_cons_self t ts)
    have hts : ∀ u ∈ ts, u < UINT64_RANGE := fun u hu => hrange u (List.mem_cons_of_mem t hu)
    have hct : cycle_start ≤ t := le_trans h1 hpt
    simp only [air_cycle_starts]
    rw [is_air_cycle_active_us hct ht]
    by_cases hw : t - cycle_start < 899999968
    · simp only [hw, if_true]
      exact List.Chain.cons (Or.inl rfl) (ih cycle_start t hct (by omega) hrest hts)
    · by_cases hf : 3599999872 ≤ t - cycle_start
      · simp only [hw, hf, if_true, if_false]
        exact List.Chain.cons (Or.inr ⟨by omega, by omega⟩)
          (ih t t (le_refl t) (by omega) hrest hts)
      · simp only [hw, hf, if_false]
        exact List.Chain.cons (Or.inl rfl) (ih cycle_start t hct (by omega) hrest hts)

/-- While the sensor answers `DHT_OK` the loop keeps running: the passes so far can be split
off, no failure line is printed and the indicator is not touched. -/
theorem main_loop_ok_prefix :
    ∀ (pre : List Tick) (s : Controller) (rest : List Tick), (∀ t ∈ pre, t.dht ≠ none) →
      main_loop s (pre ++ rest) = main_loop (main_loop s pre).1 rest ∧
      (main_loop s pre).2 = false ∧
      (main_loop s pre).1.trace.count Effect.printf_failed =
        s.trace.count Effect.printf_failed ∧
      (main_loop s pre).1.led = s.led := by
  intro pre
  induction pre with
  | nil =>
    intro s rest _
    simp [main_loop]
  | cons t ts ih =>
    intro s rest hok
    obtain ⟨dht, now⟩ := t
    cases dht with
    | none => exact absurd rfl (hok ⟨none, now⟩ (List.mem_cons_self _ _))
    | some c =>
      have hts : ∀ u ∈ ts, u.dht ≠ none := fun u hu => hok u (List.mem_cons_of_mem _ hu)
      simp only [List.cons_append, main_loop, controller_cycle_ok]
      obtain ⟨h1, h2, h3, h4⟩ := ih _ rest hts
      refine ⟨h1, h2, ?_, ?_⟩
      · rw [h3]
        simp [List.count_append, List.count_cons]
      · rw [h4]


/-! ## Unrolling the loop -/

theorem main_loop_nil (s : Controller) : main_loop s [] = (s, false) := rfl

theorem main_loop_cons_ok (s : Controller) (c : ℚ) (now : Nat) (ts : List Tick) :
    main_loop s (⟨some c, now⟩ :: ts) = main_loop (controller_cycle s ⟨some c, now⟩).1 ts := by
  simp only [main_loop, controller_cycle_ok]

theorem main_loop_cons_fault (s : Controller) (now : Nat) (ts : List Tick) :
    main_loop s (⟨none, now⟩ :: ts) = ((controller_cycle s ⟨none, now⟩).1, true) := by
  simp only [main_loop, controller_cycle_fault]

theorem fans_decision_of_hot {temperature : ℚ} (h : temperature > MAXIMUM_TEMPERATURE)
    (now last : Nat) : fans_decision temperature now last = (true, last) := by
  unfold fans_decision
  rw [if_pos h]

theorem fans_decision_of_not_hot {temperature : ℚ} (h : ¬ temperature > MAXIMUM_TEMPERATURE)
    (now last : Nat) :
    fans_decision temperature now last = is_air_cycle_active now last := by
  unfold fans_decision
  rw [if_neg h]

/-- The state `main` enters the loop with. -/
theorem initialize_hardware_eq (start_time : Nat) :
    initialize_hardware start_time =
      { temp_celsius := 0, last_air_cycle_time := start_time, led := true, fans := false,
        heat_pads := false,
        trace := [Effect.sleep_ms MS_BETWEEN_CONTROLLER_CYCLES,
          Effect.gpio_put PICO_DEFAULT_LED_PIN true, Effect.gpio_put FANS_SWITCH_PIN false,
          Effect.gpio_put HEAT_PADS_SWITCH_PIN false] } := by
  simp [initialize_hardware, gpio_put, PICO_DEFAULT_LED_PIN, FANS_SWITCH_PIN,
    HEAT_PADS_SWITCH_PIN]

/-! ## Threshold decision -/

/-- C1: in every pass with a successful sensor read and converted temperature `f`, whatever the
timer state, the fans output is set to `(f > MAXIMUM_TEMPERATURE) || air_cycle_active`, where
`air_cycle_active` is what `is_air_cycle_active` answers; so it is `true` for every
`f > MAXIMUM_TEMPERATURE`. The pin write carries the same value and the loop goes on. -/
theorem ventilation_output (s : Controller) (c : ℚ) (now : Nat) :
    (controller_cycle s ⟨some c, now⟩).2 = true ∧
    (controller_cycle s ⟨some c, now⟩).1.fans =
      (decide (read_temperature c > MAXIMUM_TEMPERATURE) ||
        (is_air_cycle_active now s.last_air_cycle_time).1) ∧
    Effect.gpio_put FANS_SWITCH_PIN
        (decide (read_temperature c > MAXIMUM_TEMPERATURE) ||
          (is_air_cycle_active now s.last_air_cycle_time).1) ∈
      (controller_cycle s ⟨some c, now⟩).1.trace ∧
    (read_temperature c > MAXIMUM_TEMPERATURE →
      (controller_cycle s ⟨some c, now⟩).1.fans = true) := by
  rw [controller_cycle_ok, fans_decision_fst]
  refine ⟨rfl, rfl, by simp, ?_⟩
  intro h
  simp [h]

/-- C1, scenario A: thresholds 80 and 70, a sample converted to 85 (the `float` nearest to
265/9 degrees Celsius) and an idle timer (20 minutes after the window start) give fans on and
heat pads off. -/
theorem ventilation_output_witness :
    read_temperature (15437369 / 524288) = 85 ∧
    (is_air_cycle_active 1200000000 0).1 = false ∧
    (controller_cycle (controller_at 0 false false)
      ⟨some (15437369 / 524288), 1200000000⟩).1.fans = true ∧
    (controller_cycle (controller_at 0 false false)
      ⟨some (15437369 / 524288), 1200000000⟩).1.heat_pads = false :=
  ⟨read_temperature_85,
   by
    rw [is_air_cycle_active_us (by norm_num [controller_at]) (by norm_num [UINT64_RANGE])]
    norm_num [controller_at],
   (ventilation_output (controller_at 0 false false) (15437369 / 524288) 1200000000).2.2.2
     (by rw [read_temperature_85]; norm_num [MAXIMUM_TEMPERATURE]),
   by rw [controller_cycle_ok, read_temperature_85]; norm_num [MINIMUM_TEMPERATURE]⟩

/-- C2: in every pass with a successful sensor read and converted temperature `f` the heat pads
output is set to exactly `f < MINIMUM_TEMPERATURE`: `true` below the minimum, `false` at or
above it, and the same whatever the state (timer, outputs) and the clock are. -/
theorem heating_output (s s' : Controller) (c : ℚ) (now now' : Nat) :
    (controller_cycle s ⟨some c, now⟩).1.heat_pads =
      decide (read_temperature c < MINIMUM_TEMPERATURE) ∧
    Effect.gpio_put HEAT_PADS_SWITCH_PIN (decide (read_temperature c < MINIMUM_TEMPERATURE)) ∈
      (controller_cycle s ⟨some c, now⟩).1.trace ∧
    (read_temperature c < MINIMUM_TEMPERATURE →
      (controller_cycle s ⟨some c, now⟩).1.heat_pads = true) ∧
    (MINIMUM_TEMPERATURE ≤ read_temperature c →
      (controller_cycle s ⟨some c, now⟩).1.heat_pads = false) ∧
    (controller_cycle s ⟨some c, now⟩).1.heat_pads =
      (controller_cycle s' ⟨some c, now'⟩).1.heat_pads := by
  rw [controller_cycle_ok, controller_cycle_ok]
  refine ⟨rfl, by simp, ?_, ?_, rfl⟩
  · intro h
    simp [h]
  · intro h
    simp [not_lt.mpr h]

/-- C2 at concrete inputs: converted temperature 65 turns the heat pads on (timer active),
converted temperature 70 leaves them off (timer idle). -/
theorem heating_output_witness :
    read_temperature (9611947 / 524288) < MINIMUM_TEMPERATURE ∧
    (controller_cycle (controller_at 0 false false)
      ⟨some (9611947 / 524288), 0⟩).1.heat_pads = true ∧
    MINIMUM_TEMPERATURE ≤ read_temperature (5534151 / 262144) ∧
    (controller_cycle (controller_at 0 true true)
      ⟨some (5534151 / 262144), 1200000000⟩).1.heat_pads = false :=
  ⟨by rw [read_temperature_65]; norm_num [MINIMUM_TEMPERATURE],
   (heating_output (controller_at 0 false false) (controller_at 0 false false)
      (9611947 / 524288) 0 0).2.2.1
      (by rw [read_temperature_65]; norm_num [MINIMUM_TEMPERATURE]),
   by rw [read_temperature_70]; norm_num [MINIMUM_TEMPERATURE],
   (heating_output (controller_at 0 true true) (controller_at 0 true true)
      (5534151 / 262144) 1200000000 0).2.2.2.1
      (by rw [read_temperature_70]; norm_num [MINIMUM_TEMPERATURE])⟩

/-- C3: in every pass with a successful sensor read whose converted temperature `f` satisfies
`MINIMUM_TEMPERATURE ≤ f ≤ MAXIMUM_TEMPERATURE` and in which `is_air_cycle_active` answers
`false`, the fans output and the heat pads output are both set to `false`. -/
theorem in_band_idle_outputs_off (s : Controller) (c : ℚ) (now : Nat)
    (hmin : MINIMUM_TEMPERATURE ≤ read_temperature c)
    (hmax : read_temperature c ≤ MAXIMUM_TEMPERATURE)
    (hidle : (is_air_cycle_active now s.last_air_cycle_time).1 = false) :
    (controller_cycle s ⟨some c, now⟩).1.fans = false ∧
    (controller_cycle s ⟨some c, now⟩).1.heat_pads = false ∧
    Effect.gpio_put FANS_SWITCH_PIN false ∈ (controller_cycle s ⟨some c, now⟩).1.trace ∧
    Effect.gpio_put HEAT_PADS_SWITCH_PIN false ∈ (controller_cycle s ⟨some c, now⟩).1.trace := by
  rw [controller_cycle_ok, fans_decision_fst]
  simp [hidle, not_lt.mpr hmin, not_lt.mpr hmax]

/-- C3, scenario C: thresholds 70 and 80, converted temperature 75 (the `float` nearest to
215/9 degrees Celsius), timer idle (20 minutes after the window start): both outputs off. -/
theorem in_band_idle_outputs_off_witness :
    read_temperature (6262329 / 262144) = 75 ∧
    (controller_cycle (controller_at 0 true true)
      ⟨some (6262329 / 262144), 1200000000⟩).1.fans = false ∧
    (controller_cycle (controller_at 0 true true)
      ⟨some (6262329 / 262144), 1200000000⟩).1.heat_pads = false :=
  ⟨read_temperature_75,
   (in_band_idle_outputs_off (controller_at 0 true true) (6262329 / 262144) 1200000000
      (by rw [read_temperature_75]; norm_num [MINIMUM_TEMPERATURE])
      (by rw [read_temperature_75]; norm_num [MAXIMUM_TEMPERATURE])
      (by
    rw [is_air_cycle_active_us (by norm_num [controller_at]) (by norm_num [UINT64_RANGE])]
    norm_num [controller_at])).1,
   (in_band_idle_outputs_off (controller_at 0 true true) (6262329 / 262144) 1200000000
      (by rw [read_temperature_75]; norm_num [MINIMUM_TEMPERATURE])
      (by rw [read_temperature_75]; norm_num [MAXIMUM_TEMPERATURE])
      (by
    rw [is_air_cycle_active_us (by norm_num [controller_at]) (by norm_num [UINT64_RANGE])]
    norm_num [controller_at])).2.1⟩

/-! ## The air cycle timer -/

/-- C4 as stated fails: 899999999 microseconds after the window start less than 15 minutes have
elapsed, yet the call answers `false` (the program sees 15.0 minutes); 3599999999 microseconds
after it less than 60 minutes have elapsed, yet the call resets the window start. -/
theorem three_cases_counterexample :
    spec_elapsed 899999999 0 < AIR_CYCLE_MINS_PER_HOUR ∧
    is_air_cycle_active 899999999 0 = (false, 0) ∧
    ¬ spec_elapsed 3599999999 0 < AIR_CYCLE_MINS_PER_HOUR ∧
    ¬ 60 ≤ spec_elapsed 3599999999 0 ∧
    is_air_cycle_active 3599999999 0 = (false, 3599999999) := by
  refine ⟨by norm_num [spec_elapsed, AIR_CYCLE_MINS_PER_HOUR], ?_,
    by norm_num [spec_elapsed, AIR_CYCLE_MINS_PER_HOUR], by norm_num [spec_elapsed], ?_⟩
  · rw [is_air_cycle_active_us (by norm_num) (by norm_num [UINT64_RANGE])]
    norm_num
  · rw [is_air_cycle_active_us (by norm_num) (by norm_num [UINT64_RANGE])]
    norm_num

/-- C4, amended: for every `cycle_start` and every `now ≥ cycle_start` within the range of the
clock, with `elapsed` the minutes the program computes in single precision (the microsecond
difference converted to `float` and divided by `60000000.0f`): (1) if `elapsed < 15` the call
answers `true` and leaves `cycle_start` as it is; (2) otherwise, if `elapsed ≥ 60` it answers
`false` and sets `cycle_start` to `now`; (3) otherwise it answers `false` and leaves
`cycle_start` as it is. The program sees `elapsed < 15` iff `now - cycle_start` is below
899999968 microseconds (15 minutes less 32 microseconds) and `elapsed ≥ 60` iff it is at least
3599999872 microseconds (60 minutes less 128 microseconds); so the answer is `true` iff the
former and `cycle_start` changes iff the latter. -/
theorem is_air_cycle_active_three_cases (cycle_start now : Nat)
    (hle : cycle_start ≤ now) (hrange : now < UINT64_RANGE) :
    (minutes_since_last_air_cycle now cycle_start < AIR_CYCLE_MINS_PER_HOUR →
      is_air_cycle_active now cycle_start = (true, cycle_start)) ∧
    (¬ minutes_since_last_air_cycle now cycle_start < AIR_CYCLE_MINS_PER_HOUR →
      60 ≤ minutes_since_last_air_cycle now cycle_start →
      is_air_cycle_active now cycle_start = (false, now)) ∧
    (¬ minutes_since_last_air_cycle now cycle_start < AIR_CYCLE_MINS_PER_HOUR →
      ¬ 60 ≤ minutes_since_last_air_cycle now cycle_start →
      is_air_cycle_active now cycle_start = (false, cycle_start)) ∧
    (minutes_since_last_air_cycle now cycle_start < AIR_CYCLE_MINS_PER_HOUR ↔
      now - cycle_start < 899999968) ∧
    (60 ≤ minutes_since_last_air_cycle now cycle_start ↔ 3599999872 ≤ now - cycle_start) ∧
    ((is_air_cycle_active now cycle_start).1 = true ↔ now - cycle_start < 899999968) ∧
    ((is_air_cycle_active now cycle_start).2 ≠ cycle_start ↔
      3599999872 ≤ now - cycle_start) := by
  rw [is_air_cycle_active_us hle hrange, minutes_since_last_air_cycle_eq hle hrange]
  simp only [AIR_CYCLE_MINS_PER_HOUR, elapsed_minutes_lt_15, elapsed_minutes_ge_60]
  refine ⟨?_, ?_, ?_, trivial, trivial, ?_, ?_⟩
  · intro h
    simp [h]
  · intro h1 h2
    simp [h1, h2]
  · intro h1 h2
    simp [h1, h2]
  · split_ifs <;> simp [*]
  · split_ifs <;> simp [*] <;> omega

/-- C4, amended, at the three regions and at their edges, from a window start at 1 second of
clock time: 10 minutes, 61 minutes and 20 minutes after it, and the last microsecond before
each of the two thresholds the program applies. -/
theorem is_air_cycle_active_three_cases_witness :
    ((1000000 : Nat) ≤ 601000000 ∧ 601000000 < UINT64_RANGE ∧
      minutes_since_last_air_cycle 601000000 1000000 < AIR_CYCLE_MINS_PER_HOUR ∧
      is_air_cycle_active 601000000 1000000 = (true, 1000000)) ∧
    (¬ minutes_since_last_air_cycle 3661000000 1000000 < AIR_CYCLE_MINS_PER_HOUR ∧
      60 ≤ minutes_since_last_air_cycle 3661000000 1000000 ∧
      is_air_cycle_active 3661000000 1000000 = (false, 3661000000)) ∧
    (¬ minutes_since_last_air_cycle 1201000000 1000000 < AIR_CYCLE_MINS_PER_HOUR ∧
      ¬ 60 ≤ minutes_since_last_air_cycle 1201000000 1000000 ∧
      is_air_cycle_active 1201000000 1000000 = (false, 1000000)) ∧
    ((is_air_cycle_active 900999967 1000000).1 = true ∧
      (is_air_cycle_active 900999968 1000000).1 = false ∧
      (is_air_cycle_active 3600999871 1000000).2 = 1000000 ∧
      (is_air_cycle_active 3600999872 1000000).2 = 3600999872) :=
  ⟨⟨by norm_num, by norm_num [UINT64_RANGE],
    ((is_air_cycle_active_three_cases 1000000 601000000 (by norm_num)
      (by norm_num [UINT64_RANGE])).2.2.2.1).mpr (by norm_num),
    (is_air_cycle_active_three_cases 1000000 601000000 (by norm_num)
      (by norm_num [UINT64_RANGE])).1
      (((is_air_cycle_active_three_cases 1000000 601000000 (by norm_num)
        (by norm_num [UINT64_RANGE])).2.2.2.1).mpr (by norm_num))⟩,
   ⟨fun h => absurd (((is_air_cycle_active_three_cases 1000000 3661000000 (by norm_num)
      (by norm_num [UINT64_RANGE])).2.2.2.1).mp h) (by norm_num),
    ((is_air_cycle_active_three_cases 1000000 3661000000 (by norm_num)
      (by norm_num [UINT64_RANGE])).2.2.2.2.1).mpr (by norm_num),
    by rw [is_air_cycle_active_us (by norm_num) (by norm_num [UINT64_RANGE])]; norm_num⟩,
   ⟨fun h => absurd (((is_air_cycle_active_three_cases 1000000 1201000000 (by norm_num)
      (by norm_num [UINT64_RANGE])).2.2.2.1).mp h) (by norm_num),
    fun h => absurd (((is_air_cycle_active_three_cases 1000000 1201000000 (by norm_num)
      (by norm_num [UINT64_RANGE])).2.2.2.2.1).mp h) (by norm_num),
    by rw [is_air_cycle_active_us (by norm_num) (by norm_num [UINT64_RANGE])]; norm_num⟩,
   ⟨((is_air_cycle_active_three_cases 1000000 900999967 (by norm_num)
      (by norm_num [UINT64_RANGE])).2.2.2.2.2.1).mpr (by norm_num),
    by rw [is_air_cycle_active_us (by norm_num) (by norm_num [UINT64_RANGE])]; norm_num,
    by rw [is_air_cycle_active_us (by norm_num) (by norm_num [UINT64_RANGE])]; norm_num,
    by rw [is_air_cycle_active_us (by norm_num) (by norm_num [UINT64_RANGE])]; norm_num⟩⟩

/-- C5 as stated fails: after a reset at 60 minutes (window start 0), a call made 899999999
microseconds later, less than 15 minutes after the reset, answers `false`. -/
theorem window_counterexample :
    (0 : Nat) ≤ 3600000000 ∧ (3600000000 : Nat) ≤ 4499999999 ∧ 4499999999 < UINT64_RANGE ∧
    60 ≤ spec_elapsed 3600000000 0 ∧
    spec_elapsed 4499999999 3600000000 < AIR_CYCLE_MINS_PER_HOUR ∧
    is_air_cycle_active 3600000000 0 = (false, 3600000000) ∧
    is_air_cycle_active 4499999999 (is_air_cycle_active 3600000000 0).2 =
      (false, 3600000000) := by
  have h1 : is_air_cycle_active 3600000000 0 = (false, 3600000000) := by
    rw [is_air_cycle_active_us (by norm_num) (by norm_num [UINT64_RANGE])]
    norm_num
  refine ⟨by norm_num, by norm_num, by norm_num [UINT64_RANGE], by norm_num [spec_elapsed],
    by norm_num [spec_elapsed, AIR_CYCLE_MINS_PER_HOUR], h1, ?_⟩
  rw [h1, is_air_cycle_active_us (by norm_num) (by norm_num [UINT64_RANGE])]
  norm_num

/-- C5, amended: the new forced-ventilation window begins on the call after a reset. For every
timer state and call time `now` with 60 minutes or more elapsed, `is_air_cycle_active` answers
`false` and sets `cycle_start` to `now`; the next call, made at any `now'` with
`0 ≤ now' - now < 899999968` microseconds (15 minutes less 32 microseconds), answers `true` and
leaves `cycle_start` equal to `now`. -/
theorem window_begins_after_reset (cycle_start now now' : Nat)
    (hle : cycle_start ≤ now) (hle' : now ≤ now') (hrange : now' < UINT64_RANGE)
    (hfull : 60 ≤ spec_elapsed now cycle_start)
    (hwindow : now' - now < 899999968) :
    is_air_cycle_active now cycle_start = (false, now) ∧
    is_air_cycle_active now' (is_air_cycle_active now cycle_start).2 = (true, now) := by
  have h1 : is_air_cycle_active now cycle_start = (false, now) := by
    rw [is_air_cycle_active_us hle (lt_of_le_of_lt hle' hrange)]
    rw [spec_elapsed_ge_60] at hfull
    have h15 : ¬ now - cycle_start < 899999968 := by omega
    have h60 : 3599999872 ≤ now - cycle_start := by omega
    simp [h15, h60]
  refine ⟨h1, ?_⟩
  rw [h1, is_air_cycle_active_us hle' hrange]
  simp [hwindow]

/-- C5, amended, the scenario of the specification: from a window start at time 0, calls at 10,
20 and 61 minutes answer `true`, `false` without reset and `false` with reset to the time of the
call, and a call made right after the last one answers `true` again. -/
theorem window_begins_after_reset_witness :
    is_air_cycle_active 600000000 0 = (true, 0) ∧
    is_air_cycle_active 1200000000 0 = (false, 0) ∧
    60 ≤ spec_elapsed 3660000000 0 ∧
    is_air_cycle_active 3660000000 0 = (false, 3660000000) ∧
    is_air_cycle_active 3660000001 (is_air_cycle_active 3660000000 0).2 = (true, 3660000000) ∧
    air_cycle_starts 0 [600000000, 1200000000, 3660000000, 3660000001] =
      [0, 0, 3660000000, 3660000000] :=
  ⟨by rw [is_air_cycle_active_us (by norm_num) (by norm_num [UINT64_RANGE])]; norm_num,
   by rw [is_air_cycle_active_us (by norm_num) (by norm_num [UINT64_RANGE])]; norm_num,
   by norm_num [spec_elapsed],
   (window_begins_after_reset 0 3660000000 3660000001 (by norm_num) (by norm_num)
      (by norm_num [UINT64_RANGE]) (by norm_num [spec_elapsed]) (by norm_num)).1,
   (window_begins_after_reset 0 3660000000 3660000001 (by norm_num) (by norm_num)
      (by norm_num [UINT64_RANGE]) (by norm_num [spec_elapsed]) (by norm_num)).2,
   by
    simp only [air_cycle_starts]
    rw [@is_air_cycle_active_us 600000000 0 (by norm_num)
      (by norm_num [UINT64_RANGE])]
    norm_num
    rw [@is_air_cycle_active_us 1200000000 0 (by norm_num)
      (by norm_num [UINT64_RANGE])]
    norm_num
    rw [@is_air_cycle_active_us 3660000000 0 (by norm_num)
      (by norm_num [UINT64_RANGE])]
    norm_num
    rw [@is_air_cycle_active_us 3660000001 3660000000 (by norm_num)
      (by norm_num [UINT64_RANGE])]
    norm_num⟩

/-- C10 as stated fails: a single call 3599999999 microseconds after the window start (so with
`d = 3599999999`) resets it, a move of less than the full period of 3600000000 microseconds. -/
theorem bounded_drift_counterexample :
    List.Chain (fun a b => a ≤ b ∧ b ≤ a + 3599999999) 0 [3599999999] ∧
    (∀ t ∈ [3599999999], t < UINT64_RANGE) ∧
    air_cycle_starts 0 [3599999999] = [3599999999] ∧
    ¬ List.Chain
      (fun a b => b = a ∨ (a + 60 * 60000000 ≤ b ∧ b < a + 60 * 60000000 + 3599999999))
      0 (air_cycle_starts 0 [3599999999]) := by
  have h : air_cycle_starts 0 [3599999999] = [3599999999] := by
    simp only [air_cycle_starts]
    rw [is_air_cycle_active_us (by norm_num) (by norm_num [UINT64_RANGE])]
    norm_num
  refine ⟨by simp, by simp [UINT64_RANGE], h, ?_⟩
  rw [h]
  simp

/-- C10, amended: bounded drift of the forced-ventilation schedule. For every series of
`is_air_cycle_active` calls at non-decreasing times (within the range of the clock) in which
the first call is at most `d` microseconds after the initial `cycle_start` and consecutive calls
are at most `d` apart, each call either keeps `cycle_start` or (a reset) moves it forward by at
least 3599999872 microseconds (the full period of 60 minutes less 128 microseconds) and by less
than 3599999872 microseconds plus `d`, hence by less than the full period plus `d`; so
`cycle_start` never moves backward. -/
theorem air_cycle_bounded_drift (d cycle_start : Nat) (times : List Nat)
    (hcadence : List.Chain (fun a b => a ≤ b ∧ b ≤ a + d) cycle_start times)
    (hrange : ∀ t ∈ times, t < UINT64_RANGE) :
    List.Chain (fun a b => b = a ∨ (a + 3599999872 ≤ b ∧ b < a + 3599999872 + d))
      cycle_start (air_cycle_starts cycle_start times) ∧
    List.Chain (fun a b => b = a ∨ b < a + 60 * 60000000 + d)
      cycle_start (air_cycle_starts cycle_start times) ∧
    List.Chain (fun a b => a ≤ b) cycle_start (air_cycle_starts cycle_start times) := by
  have h := air_cycle_starts_chain d times cycle_start cycle_start (le_refl _) (by omega)
    hcadence hrange
  refine ⟨h, ?_, ?_⟩
  · refine List.Chain.imp ?_ h
    intro a b hab
    rcases hab with hab | hab
    · exact Or.inl hab
    · exact Or.inr (by omega)
  · refine List.Chain.imp ?_ h
    intro a b hab
    rcases hab with hab | hab <;> omega

/-- C10, amended, with calls every 30 minutes from a window start at 0: the call at 60 minutes
resets (a move of exactly the full period), the calls at 30, 90 and 120 minutes keep the start;
and a single call 128 microseconds before the full period resets. -/
theorem air_cycle_bounded_drift_witness :
    air_cycle_starts 0 [1800000000, 3600000000, 5400000000, 7200000000, 9000000000] =
      [0, 3600000000, 3600000000, 7200000000, 7200000000] ∧
    air_cycle_starts 0 [3599999872] = [3599999872] ∧
    List.Chain (fun a b => b = a ∨ (a + 3599999872 ≤ b ∧ b < a + 3599999872 + 1800000000))
      0 (air_cycle_starts 0 [1800000000, 3600000000, 5400000000, 7200000000, 9000000000]) ∧
    List.Chain (fun a b => b = a ∨ (a + 3599999872 ≤ b ∧ b < a + 3599999872 + 3599999872))
      0 (air_cycle_starts 0 [3599999872]) :=
  ⟨by
    simp only [air_cycle_starts]
    rw [@is_air_cycle_active_us 1800000000 0 (by norm_num)
      (by norm_num [UINT64_RANGE])]
    norm_num
    rw [@is_air_cycle_active_us 3600000000 0 (by norm_num)
      (by norm_num [UINT64_RANGE])]
    norm_num
    rw [@is_air_cycle_active_us 5400000000 3600000000 (by norm_num)
      (by norm_num [UINT64_RANGE])]
    norm_num
    rw [@is_air_cycle_active_us 7200000000 3600000000 (by norm_num)
      (by norm_num [UINT64_RANGE])]
    norm_num
    rw [@is_air_cycle_active_us 9000000000 7200000000 (by norm_num)
      (by norm_num [UINT64_RANGE])]
    norm_num,
   by
    simp only [air_cycle_starts]
    rw [is_air_cycle_active_us (by norm_num) (by norm_num [UINT64_RANGE])]
    norm_num,
   (air_cycle_bounded_drift 1800000000 0
      [1800000000, 3600000000, 5400000000, 7200000000, 9000000000]
      (by simp) (by simp [UINT64_RANGE])).1,
   (air_cycle_bounded_drift 3599999872 0 [3599999872] (by simp) (by simp [UINT64_RANGE])).1⟩

/-! ## Sensor fault -/

/-- C6: sensor-fault escalation. In every run, when the sensor answers `DHT_OK` in the passes
`pre` and a fault in the next one, the loop is still running before that pass and is left in
it (whatever the environment would answer later, `post`); that pass performs the sensor read,
one failure line and the write that turns the indicator off, and nothing else; the failure line
is the only one of the run; the indicator, on until then, is off; the fans output, the heat
pads output and `last_air_cycle_time` are as they were before that pass. -/
theorem sensor_fault_halts (start_time : Nat) (pre post : List Tick) (now : Nat)
    (hpre : ∀ t ∈ pre, t.dht ≠ none) :
    (main start_time pre).2 = false ∧
    (main start_time (pre ++ ⟨none, now⟩ :: post)).2 = true ∧
    (main start_time (pre ++ ⟨none, now⟩ :: post)).1.trace =
      (main start_time pre).1.trace ++
        [Effect.dht_read, Effect.printf_failed, Effect.gpio_put PICO_DEFAULT_LED_PIN false] ∧
    (main start_time (pre ++ ⟨none, now⟩ :: post)).1.trace.count
      Effect.printf_failed = 1 ∧
    (main start_time pre).1.led = true ∧
    (main start_time (pre ++ ⟨none, now⟩ :: post)).1.led = false ∧
    (main start_time (pre ++ ⟨none, now⟩ :: post)).1.fans =
      (main start_time pre).1.fans ∧
    (main start_time (pre ++ ⟨none, now⟩ :: post)).1.heat_pads =
      (main start_time pre).1.heat_pads ∧
    (main start_time (pre ++ ⟨none, now⟩ :: post)).1.last_air_cycle_time =
      (main start_time pre).1.last_air_cycle_time := by
  unfold main
  obtain ⟨h1, h2, h3, h4⟩ :=
    main_loop_ok_prefix pre (initialize_hardware start_time) (⟨none, now⟩ :: post) hpre
  have hinit : (initialize_hardware start_time).trace.count Effect.printf_failed = 0 := by
    simp [initialize_hardware, gpio_put, PICO_DEFAULT_LED_PIN, FANS_SWITCH_PIN,
      HEAT_PADS_SWITCH_PIN]
  have hled : (initialize_hardware start_time).led = true := by
    simp [initialize_hardware, gpio_put, PICO_DEFAULT_LED_PIN, FANS_SWITCH_PIN,
      HEAT_PADS_SWITCH_PIN]
  rw [h1]
  simp only [main_loop, controller_cycle_fault]
  refine ⟨h2, trivial, trivial, ?_, ?_, trivial, trivial, trivial, trivial⟩
  · rw [List.count_append, h3, hinit]
    simp [List.count_cons]
  · rw [h4, hled]

/-- C6, scenario D: a run started at 60 seconds of clock time whose first two passes read 24 and
30 degrees Celsius and whose third pass meets a sensor fault; the pass the environment could
still serve is not run. -/
theorem sensor_fault_halts_witness :
    (∀ t ∈ [(⟨some 24, 60000100⟩ : Tick), ⟨some 30, 120000100⟩], t.dht ≠ none) ∧
    main 60000000 ([⟨some 24, 60000100⟩, ⟨some 30, 120000100⟩] ++
        ⟨none, 180000100⟩ :: [⟨some 24, 240000100⟩]) =
      (⟨30, 60000000, false, true, false,
        [Effect.sleep_ms 60000, Effect.gpio_put 25 true, Effect.gpio_put 19 false,
         Effect.gpio_put 18 false,
         Effect.dht_read, Effect.gpio_put 19 true, Effect.gpio_put 18 false,
         Effect.printf_status (4928307 / 65536) true false, Effect.sleep_ms 60000,
         Effect.dht_read, Effect.gpio_put 19 true, Effect.gpio_put 18 false,
         Effect.printf_status 86 true false, Effect.sleep_ms 60000,
         Effect.dht_read, Effect.printf_failed, Effect.gpio_put 25 false]⟩, true) ∧
    (main 60000000 ([⟨some 24, 60000100⟩, ⟨some 30, 120000100⟩] ++
        ⟨none, 180000100⟩ :: [⟨some 24, 240000100⟩])).1.trace.count Effect.printf_failed = 1 :=
  ⟨by simp,
   by
    rw [main, List.cons_append, List.cons_append, List.nil_append, main_loop_cons_ok,
      main_loop_cons_ok, main_loop_cons_fault, controller_cycle_fault, controller_cycle_ok,
      controller_cycle_ok, read_temperature_24, read_temperature_30, initialize_hardware_eq,
      fans_decision_of_hot (by norm_num [MAXIMUM_TEMPERATURE]),
      fans_decision_of_not_hot (by norm_num [MAXIMUM_TEMPERATURE]),
      is_air_cycle_active_us (by norm_num) (by norm_num [UINT64_RANGE])]
    norm_num [MINIMUM_TEMPERATURE, FANS_SWITCH_PIN, HEAT_PADS_SWITCH_PIN,
      PICO_DEFAULT_LED_PIN, MS_BETWEEN_CONTROLLER_CYCLES],
   (sensor_fault_halts 60000000 [⟨some 24, 60000100⟩, ⟨some 30, 120000100⟩]
      [⟨some 24, 240000100⟩] 180000100 (by simp)).2.2.2.1⟩

/-! ## Scenario B -/

/-- C7 as stated fails: in the first pass of a run started at 60 seconds of clock time (the pass
is 100 microseconds after the window start, so inside the forced-ventilation window) with a
sample converted to 65 (the `float` nearest to 55/3 degrees Celsius), the fans are switched on
together with the heat pads. -/
theorem scenario_b_counterexample :
    read_temperature (9611947 / 524288) = 65 ∧
    (main 60000000 [⟨some (9611947 / 524288), 60000100⟩]).2 = false ∧
    (main 60000000 [⟨some (9611947 / 524288), 60000100⟩]).1.fans = true ∧
    (main 60000000 [⟨some (9611947 / 524288), 60000100⟩]).1.heat_pads = true ∧
    Effect.gpio_put FANS_SWITCH_PIN true ∈
      (main 60000000 [⟨some (9611947 / 524288), 60000100⟩]).1.trace := by
  have h : main 60000000 [⟨some (9611947 / 524288), 60000100⟩] =
      ({ temp_celsius := 9611947 / 524288, last_air_cycle_time := 60000000, led := true,
         fans := true, heat_pads := true,
         trace := [Effect.sleep_ms 60000, Effect.gpio_put 25 true, Effect.gpio_put 19 false,
           Effect.gpio_put 18 false, Effect.dht_read, Effect.gpio_put 19 true,
           Effect.gpio_put 18 true, Effect.printf_status 65 true true,
           Effect.sleep_ms 60000] }, false) := by
    rw [main, main_loop_cons_ok, main_loop_nil, controller_cycle_ok, read_temperature_65,
      initialize_hardware_eq, fans_decision_of_not_hot (by norm_num [MAXIMUM_TEMPERATURE]),
      is_air_cycle_active_us (by norm_num) (by norm_num [UINT64_RANGE])]
    norm_num [MINIMUM_TEMPERATURE, FANS_SWITCH_PIN, HEAT_PADS_SWITCH_PIN,
      PICO_DEFAULT_LED_PIN, MS_BETWEEN_CONTROLLER_CYCLES]
  rw [h]
  exact ⟨read_temperature_65, rfl, rfl, rfl, by simp [FANS_SWITCH_PIN]⟩

/-- C7, amended: with thresholds 80 and 70, every pass with a successful sensor read and
converted temperature 65 sets the heat pads output to `true` and the fans output to what
`is_air_cycle_active` answers; so the outputs are fans off, heat pads on when the timer is
idle. -/
theorem scenario_b_outputs (s : Controller) (c : ℚ) (now : Nat)
    (h65 : read_temperature c = 65) :
    MAXIMUM_TEMPERATURE = 80 ∧ MINIMUM_TEMPERATURE = 70 ∧
    (controller_cycle s ⟨some c, now⟩).2 = true ∧
    (controller_cycle s ⟨some c, now⟩).1.heat_pads = true ∧
    (controller_cycle s ⟨some c, now⟩).1.fans =
      (is_air_cycle_active now s.last_air_cycle_time).1 ∧
    ((is_air_cycle_active now s.last_air_cycle_time).1 = false →
      (controller_cycle s ⟨some c, now⟩).1.fans = false ∧
      (controller_cycle s ⟨some c, now⟩).1.heat_pads = true) := by
  rw [controller_cycle_ok, fans_decision_fst, h65]
  have hmax : ¬ ((65 : ℚ) > MAXIMUM_TEMPERATURE) := by norm_num [MAXIMUM_TEMPERATURE]
  have hmin : (65 : ℚ) < MINIMUM_TEMPERATURE := by norm_num [MINIMUM_TEMPERATURE]
  refine ⟨rfl, rfl, rfl, by simp [hmin], by simp [hmax], ?_⟩
  intro h
  simp [hmax, hmin, h]

/-- C7, amended, at scenario B with the timer idle (20 minutes after the window start): fans
off, heat pads on. -/
theorem scenario_b_outputs_witness :
    read_temperature (9611947 / 524288) = 65 ∧
    (is_air_cycle_active 1200000000 0).1 = false ∧
    (controller_cycle (controller_at 0 true false)
      ⟨some (9611947 / 524288), 1200000000⟩).1.fans = false ∧
    (controller_cycle (controller_at 0 true false)
      ⟨some (9611947 / 524288), 1200000000⟩).1.heat_pads = true :=
  ⟨read_temperature_65,
   by rw [is_air_cycle_active_us (by norm_num) (by norm_num [UINT64_RANGE])]; norm_num,
   ((scenario_b_outputs (controller_at 0 true false) (9611947 / 524288) 1200000000
      read_temperature_65).2.2.2.2.2 (by
        rw [is_air_cycle_active_us (by norm_num [controller_at]) (by norm_num [UINT64_RANGE])]
        norm_num [controller_at])).1,
   ((scenario_b_outputs (controller_at 0 true false) (9611947 / 524288) 1200000000
      read_temperature_65).2.2.2.2.2 (by
        rw [is_air_cycle_active_us (by norm_num [controller_at]) (by norm_num [UINT64_RANGE])]
        norm_num [controller_at])).2⟩

/-! ## Unit conversion -/

/-- C8 as stated fails: 24 degrees Celsius converts to 75.19999694824219, not to
`24 * 9/5 + 32 = 75.2`, and the `float` next below 24 converts to the same value, so the
conversion is not strictly increasing. -/
theorem conversion_counterexample :
    read_temperature 24 = 4928307 / 65536 ∧
    read_temperature 24 ≠ 24 * (9 / 5) + 32 ∧
    (12582911 / 524288 : ℚ) < 24 ∧
    read_temperature (12582911 / 524288) = read_temperature 24 ∧
    ¬ StrictMono read_temperature := by
  have h1 : (12582911 / 524288 : ℚ) < 24 := by norm_num
  have h2 : read_temperature (12582911 / 524288) = read_temperature 24 := by
    rw [read_temperature_below_24, read_temperature_24]
  refine ⟨read_temperature_24, ?_, h1, h2, ?_⟩
  · rw [read_temperature_24]
    norm_num
  · intro hmono
    have := hmono h1
    rw [h2] at this
    exact lt_irrefl _ this

/-- C8, amended: the conversion is `c * 9/5 + 32` up to the rounding of its `double` steps and
of the final cast to `float`. For every Celsius reading `c` of magnitude at most `2 ^ 100`,
`read_temperature` answers a finite value (below `2 ^ 128` in magnitude, the range of `float`)
within `|c * 9/5 + 32| / 2 ^ 23 + |c| / 2 ^ 50` of `c * 9/5 + 32`, and it is non-decreasing in
`c`. -/
theorem read_temperature_rounded (c c' : ℚ) (hc : |c| ≤ 2 ^ 100) (hc' : |c'| ≤ 2 ^ 100)
    (hle : c ≤ c') :
    |read_temperature c - (c * 9 / 5 + 32)| ≤ |c * 9 / 5 + 32| / 2 ^ 23 + |c| / 2 ^ 50 ∧
    read_temperature c ≤ read_temperature c' ∧
    |read_temperature c| < 2 ^ 128 ∧ |read_temperature c'| < 2 ^ 128 :=
  ⟨read_temperature_error c, read_temperature_mono hle,
   read_temperature_finite c hc, read_temperature_finite c' hc'⟩

/-- C8, amended, at concrete readings: the `float` nearest to 21.11 converts to
69.99800109863281, within a hundredth of 70 and within the stated bound of the exact
conversion, and not above the conversion of 24; 0 and 100 convert to 32 and 212 exactly. -/
theorem read_temperature_rounded_witness :
    |(1383465 / 65536 : ℚ)| ≤ 2 ^ 100 ∧ |(24 : ℚ)| ≤ 2 ^ 100 ∧
    (1383465 / 65536 : ℚ) ≤ 24 ∧
    read_temperature (1383465 / 65536) = 4587389 / 65536 ∧
    |read_temperature (1383465 / 65536) - 70| < 1 / 100 ∧
    |read_temperature (1383465 / 65536) - ((1383465 / 65536) * 9 / 5 + 32)| ≤
      |(1383465 / 65536 : ℚ) * 9 / 5 + 32| / 2 ^ 23 + |(1383465 / 65536 : ℚ)| / 2 ^ 50 ∧
    read_temperature (1383465 / 65536) ≤ read_temperature 24 ∧
    read_temperature 0 = 32 ∧ read_temperature 100 = 212 :=
  ⟨by rw [abs_of_nonneg (by norm_num)]; norm_num,
   by rw [abs_of_nonneg (by norm_num)]; norm_num,
   by norm_num,
   read_temperature_21_11,
   by
    rw [read_temperature_21_11, abs_lt]
    constructor <;> norm_num,
   (read_temperature_rounded (1383465 / 65536) 24
      (by rw [abs_of_nonneg (by norm_num)]; norm_num)
      (by rw [abs_of_nonneg (by norm_num)]; norm_num) (by norm_num)).1,
   (read_temperature_rounded (1383465 / 65536) 24
      (by rw [abs_of_nonneg (by norm_num)]; norm_num)
      (by rw [abs_of_nonneg (by norm_num)]; norm_num) (by norm_num)).2.1,
   read_temperature_0, read_temperature_100⟩

/-! ## When the timer is consulted -/

/-- C9 as stated fails: in a pass 61 minutes after the window start with a sample converted to
86, above the maximum, `last_air_cycle_time` keeps its value 0, whereas
`is_air_cycle_active` called at that time would set it to the time of the call. -/
theorem timer_skipped_counterexample :
    read_temperature 30 = 86 ∧
    (controller_cycle (controller_at 0 false false) ⟨some 30, 3660000000⟩).2 = true ∧
    (controller_cycle (controller_at 0 false false)
      ⟨some 30, 3660000000⟩).1.last_air_cycle_time = 0 ∧
    (is_air_cycle_active 3660000000 0).2 = 3660000000 ∧
    (controller_cycle (controller_at 0 false false)
      ⟨some 30, 3660000000⟩).1.last_air_cycle_time ≠
      (is_air_cycle_active 3660000000
        (controller_at 0 false false).last_air_cycle_time).2 := by
  have h3 : (controller_at 0 false false).last_air_cycle_time = 0 := rfl
  have h1 : (controller_cycle (controller_at 0 false false)
      ⟨some 30, 3660000000⟩).1.last_air_cycle_time = 0 := by
    rw [controller_cycle_ok, read_temperature_30,
      fans_decision_of_hot (by norm_num [MAXIMUM_TEMPERATURE]), h3]
  have h2 : (is_air_cycle_active 3660000000 0).2 = 3660000000 := by
    rw [is_air_cycle_active_us (by norm_num) (by norm_num [UINT64_RANGE])]
    norm_num
  refine ⟨read_temperature_30, by rw [controller_cycle_ok], h1, h2, ?_⟩
  rw [h1, h3, h2]
  decide

/-- C9, amended: in every pass with a successful sensor read and converted temperature `f`, the
timer is consulted exactly when `f` is not above `MAXIMUM_TEMPERATURE`: then
`last_air_cycle_time` after the pass is what `is_air_cycle_active` at the time of the pass
makes of its value before the pass; when `f > MAXIMUM_TEMPERATURE` it keeps its value. -/
theorem timer_consulted_unless_overheated (s : Controller) (c : ℚ) (now : Nat) :
    (read_temperature c ≤ MAXIMUM_TEMPERATURE →
      (controller_cycle s ⟨some c, now⟩).1.last_air_cycle_time =
        (is_air_cycle_active now s.last_air_cycle_time).2) ∧
    (read_temperature c > MAXIMUM_TEMPERATURE →
      (controller_cycle s ⟨some c, now⟩).1.last_air_cycle_time = s.last_air_cycle_time) := by
  rw [controller_cycle_ok]
  constructor
  · intro h
    simp [fans_decision, not_lt.mpr h]
  · intro h
    simp [fans_decision, h]

/-- C9, amended, 61 minutes after the window start: a sample converted to 75.19999694824219
lets the timer reset the window start to the time of the pass, a sample converted to 86 leaves
it at 0. -/
theorem timer_consulted_unless_overheated_witness :
    read_temperature 24 ≤ MAXIMUM_TEMPERATURE ∧
    (is_air_cycle_active 3660000000 0).2 = 3660000000 ∧
    (controller_cycle (controller_at 0 false false)
      ⟨some 24, 3660000000⟩).1.last_air_cycle_time =
      (is_air_cycle_active 3660000000 0).2 ∧
    read_temperature 30 > MAXIMUM_TEMPERATURE ∧
    (controller_cycle (controller_at 0 false false)
      ⟨some 30, 3660000000⟩).1.last_air_cycle_time = 0 :=
  ⟨by rw [read_temperature_24]; norm_num [MAXIMUM_TEMPERATURE],
   by rw [is_air_cycle_active_us (by norm_num) (by norm_num [UINT64_RANGE])]; norm_num,
   (timer_consulted_unless_overheated (controller_at 0 false false) 24 3660000000).1
      (by rw [read_temperature_24]; norm_num [MAXIMUM_TEMPERATURE]),
   by rw [read_temperature_30]; norm_num [MAXIMUM_TEMPERATURE],
   (timer_consulted_unless_overheated (controller_at 0 false false) 30 3660000000).2
      (by rw [read_temperature_30]; norm_num [MAXIMUM_TEMPERATURE])⟩

end Chamber
